import Mathlib

/-!
Verification of the `qiskit-ibm-catalog` facade classes
(`QiskitFunctionsCatalog`, `QiskitServerless`) and of the
Hamiltonian-simulation template script, against their natural-language
specification.

The facade methods are shallowly embedded as pure functions that return the
call they perform on the external `IBMServerlessClient`, together with any
warnings they emit.  Python keyword-argument dicts are modelled as partial
maps `String → Option PyVal`; the dict-spread `{**a, **b}` (later writer
wins) is modelled by `pyUpdate`.
-/

/-- An opaque Python value appearing in a keyword-argument dict: either a
string (the only values this code itself ever writes) or an opaque
caller-supplied object. -/
inductive PyVal where
  | str : String → PyVal
  | obj : ℕ → PyVal
deriving DecidableEq

/-- A Python keyword-argument dict, viewed as the partial map it denotes. -/
def PyDict : Type := String → Option PyVal

/-- The empty dict `{}`. -/
def pyEmpty : PyDict := fun _ => none

/-- The one-entry dict. -/
def pySingleton (k : String) (v : PyVal) : PyDict :=
  fun k2 => if k2 = k then some v else none

/-- Python dict spread `{**a, **b}`: a key bound in `b` takes the value from
`b`, any other key keeps its binding from `a`. -/
def pyUpdate (a b : PyDict) : PyDict :=
  fun k => match b k with
    | some v => some v
    | none => a k

/-- A call performed on the external `IBMServerlessClient`.  The function
argument of `provider_jobs` is opaque to the facade and modelled as `ℕ`. -/
inductive ClientCall where
  | functions : PyDict → ClientCall
  | jobs : PyDict → ClientCall
  | provider_jobs : ℕ → PyDict → ClientCall

/-- The keyword-argument dict carried by a client call. -/
def ClientCall.kwargs : ClientCall → PyDict
  | .functions d => d
  | .jobs d => d
  | .provider_jobs _ d => d

/-- Whether a client call is a `functions` request. -/
def ClientCall.isFunctions : ClientCall → Bool
  | .functions _ => true
  | _ => false

/-- Whether a client call is a `jobs` request. -/
def ClientCall.isJobs : ClientCall → Bool
  | .jobs _ => true
  | _ => false

/-- A Python warning emitted by a facade method. -/
inductive PyWarning where
  | deprecation : PyWarning
deriving DecidableEq

namespace QiskitFunctionsCatalog

/-- `QiskitFunctionsCatalog.PRE_FILTER_KEYWORD` (catalog.py, line 56). -/
def PRE_FILTER_KEYWORD : String := "catalog"

/-- `QiskitFunctionsCatalog.list` (catalog.py, lines 98-106):
`self._client.functions(**\x7b**kwargs, **\x7b"filter": self.PRE_FILTER_KEYWORD\x7d\x7d)`. -/
def list (kwargs : PyDict) : ClientCall :=
  ClientCall.functions (pyUpdate kwargs (pySingleton "filter" (PyVal.str PRE_FILTER_KEYWORD)))

/-- `QiskitFunctionsCatalog.jobs` (catalog.py, lines 108-114):
`self._client.jobs(**\x7b**kwargs, **\x7b"filter": self.PRE_FILTER_KEYWORD\x7d\x7d)`. -/
def jobs (kwargs : PyDict) : ClientCall :=
  ClientCall.jobs (pyUpdate kwargs (pySingleton "filter" (PyVal.str PRE_FILTER_KEYWORD)))

/-- `QiskitFunctionsCatalog.provider_jobs` (catalog.py, lines 116-129):
`self._client.provider_jobs(function, **kwargs)` — the kwargs are forwarded
unchanged. -/
def provider_jobs (function : ℕ) (kwargs : PyDict) : ClientCall :=
  ClientCall.provider_jobs function kwargs

/-- `QiskitFunctionsCatalog.job` (catalog.py, lines 131-140): returns
`self._client.job(job_id=job_id)`, emitting no warning.  The external
client's job lookup is the abstract map `client`; job records are opaque. -/
def job (client : String → Option ℕ) (job_id : String) : Option ℕ × List PyWarning :=
  (client job_id, [])

/-- `QiskitFunctionsCatalog.get_job_by_id` (catalog.py, lines 142-157):
emits one `DeprecationWarning`, then returns `self.job(job_id=job_id)`. -/
def get_job_by_id (client : String → Option ℕ) (job_id : String) :
    Option ℕ × List PyWarning :=
  let r := job client job_id
  (r.1, PyWarning.deprecation :: r.2)

end QiskitFunctionsCatalog

namespace QiskitServerless

/-- `QiskitServerless.PRE_FILTER_KEYWORD` (serverless.py, line 55). -/
def PRE_FILTER_KEYWORD : String := "serverless"

/-- `QiskitServerless.list` (serverless.py, lines 98-106). -/
def list (kwargs : PyDict) : ClientCall :=
  ClientCall.functions (pyUpdate kwargs (pySingleton "filter" (PyVal.str PRE_FILTER_KEYWORD)))

/-- `QiskitServerless.jobs` (serverless.py, lines 108-114). -/
def jobs (kwargs : PyDict) : ClientCall :=
  ClientCall.jobs (pyUpdate kwargs (pySingleton "filter" (PyVal.str PRE_FILTER_KEYWORD)))

/-- `QiskitServerless.job` (serverless.py, lines 116-125). -/
def job (client : String → Option ℕ) (job_id : String) : Option ℕ × List PyWarning :=
  (client job_id, [])

/-- `QiskitServerless.get_job_by_id` (serverless.py, lines 127-142): emits
one `DeprecationWarning`, then returns `self.job(job_id=job_id)`. -/
def get_job_by_id (client : String → Option ℕ) (job_id : String) :
    Option ℕ × List PyWarning :=
  let r := job client job_id
  (r.1, PyWarning.deprecation :: r.2)

end QiskitServerless

/-- A concrete caller-supplied kwargs dict `{"limit": 10}`, used as a
witness input. -/
def limitTen : PyDict := fun k => if k = "limit" then some (PyVal.obj 10) else none

/-- Claim C1: for every caller-supplied kwargs dict `F`, `list(**F)` (resp.
`jobs(**F)`) on each facade class sends the external client exactly
`{**F, "filter": C}` where `C` is the class's category constant: the request
has the right shape, every key other than `"filter"` keeps its value from
`F`, and `"filter"` is bound to `C`, overriding any caller value. -/
theorem claim_C1 (F : PyDict) (k : String) (hk : k ≠ "filter") :
    ((QiskitFunctionsCatalog.list F).isFunctions = true
      ∧ (QiskitFunctionsCatalog.list F).kwargs "filter"
          = some (PyVal.str QiskitFunctionsCatalog.PRE_FILTER_KEYWORD)
      ∧ (QiskitFunctionsCatalog.list F).kwargs k = F k)
    ∧ ((QiskitFunctionsCatalog.jobs F).isJobs = true
      ∧ (QiskitFunctionsCatalog.jobs F).kwargs "filter"
          = some (PyVal.str QiskitFunctionsCatalog.PRE_FILTER_KEYWORD)
      ∧ (QiskitFunctionsCatalog.jobs F).kwargs k = F k)
    ∧ ((QiskitServerless.list F).isFunctions = true
      ∧ (QiskitServerless.list F).kwargs "filter"
          = some (PyVal.str QiskitServerless.PRE_FILTER_KEYWORD)
      ∧ (QiskitServerless.list F).kwargs k = F k)
    ∧ ((QiskitServerless.jobs F).isJobs = true
      ∧ (QiskitServerless.jobs F).kwargs "filter"
          = some (PyVal.str QiskitServerless.PRE_FILTER_KEYWORD)
      ∧ (QiskitServerless.jobs F).kwargs k = F k) := by
  refine ⟨⟨rfl, ?_, ?_⟩, ⟨rfl, ?_, ?_⟩, ⟨rfl, ?_, ?_⟩, ⟨rfl, ?_, ?_⟩⟩ <;>
    simp [QiskitFunctionsCatalog.list, QiskitFunctionsCatalog.jobs,
      QiskitServerless.list, QiskitServerless.jobs, ClientCall.kwargs,
      pyUpdate, pySingleton, hk]

/-- Witness for C1 at the concrete dict `{"limit": 10}` and key `"limit"`. -/
theorem claim_C1_witness :
    ((QiskitFunctionsCatalog.list limitTen).isFunctions = true
      ∧ (QiskitFunctionsCatalog.list limitTen).kwargs "filter"
          = some (PyVal.str QiskitFunctionsCatalog.PRE_FILTER_KEYWORD)
      ∧ (QiskitFunctionsCatalog.list limitTen).kwargs "limit" = limitTen "limit")
    ∧ ((QiskitFunctionsCatalog.jobs limitTen).isJobs = true
      ∧ (QiskitFunctionsCatalog.jobs limitTen).kwargs "filter"
          = some (PyVal.str QiskitFunctionsCatalog.PRE_FILTER_KEYWORD)
      ∧ (QiskitFunctionsCatalog.jobs limitTen).kwargs "limit" = limitTen "limit")
    ∧ ((QiskitServerless.list limitTen).isFunctions = true
      ∧ (QiskitServerless.list limitTen).kwargs "filter"
          = some (PyVal.str QiskitServerless.PRE_FILTER_KEYWORD)
      ∧ (QiskitServerless.list limitTen).kwargs "limit" = limitTen "limit")
    ∧ ((QiskitServerless.jobs limitTen).isJobs = true
      ∧ (QiskitServerless.jobs limitTen).kwargs "filter"
          = some (PyVal.str QiskitServerless.PRE_FILTER_KEYWORD)
      ∧ (QiskitServerless.jobs limitTen).kwargs "limit" = limitTen "limit") :=
  claim_C1 limitTen "limit" (by decide)

/-- Claim C2 (amended): the fixed category filter is always present, with
the class's constant value, in the requests sent by `list` and `jobs` of
both facade classes; `provider_jobs`, however, forwards its caller-supplied
kwargs to the external client unchanged and injects no filter key. -/
theorem claim_C2 (F : PyDict) (fn : ℕ) :
    (QiskitFunctionsCatalog.list F).kwargs "filter" = some (PyVal.str "catalog")
    ∧ (QiskitFunctionsCatalog.jobs F).kwargs "filter" = some (PyVal.str "catalog")
    ∧ (QiskitServerless.list F).kwargs "filter" = some (PyVal.str "serverless")
    ∧ (QiskitServerless.jobs F).kwargs "filter" = some (PyVal.str "serverless")
    ∧ (QiskitFunctionsCatalog.provider_jobs fn F).kwargs = F := by
  refine ⟨?_, ?_, ?_, ?_, rfl⟩ <;>
    simp [QiskitFunctionsCatalog.list, QiskitFunctionsCatalog.jobs,
      QiskitServerless.list, QiskitServerless.jobs,
      QiskitFunctionsCatalog.PRE_FILTER_KEYWORD,
      QiskitServerless.PRE_FILTER_KEYWORD, ClientCall.kwargs,
      pyUpdate, pySingleton]

/-- Counterexample to C2 as stated: `provider_jobs` is a job-query operation
of the facade, yet calling it with an empty kwargs dict sends the external
client a request with no `"filter"` key at all. -/
theorem claim_C2_counterexample :
    (QiskitFunctionsCatalog.provider_jobs 0 pyEmpty).kwargs "filter" = none := rfl

/-- Claim C4: on both facade classes, `get_job_by_id` returns the same value
as `job` against the same client state, and it emits exactly one
`DeprecationWarning` while `job` emits none. -/
theorem claim_C4 (client : String → Option ℕ) (job_id : String) :
    (QiskitFunctionsCatalog.get_job_by_id client job_id).1
        = (QiskitFunctionsCatalog.job client job_id).1
    ∧ (QiskitFunctionsCatalog.get_job_by_id client job_id).2 = [PyWarning.deprecation]
    ∧ (QiskitFunctionsCatalog.job client job_id).2 = []
    ∧ (QiskitServerless.get_job_by_id client job_id).1
        = (QiskitServerless.job client job_id).1
    ∧ (QiskitServerless.get_job_by_id client job_id).2 = [PyWarning.deprecation]
    ∧ (QiskitServerless.job client job_id).2 = [] :=
  ⟨rfl, rfl, rfl, rfl, rfl, rfl⟩

/-!
`save_account` (C3) and construction (C7).
-/

/-- The `Channel` enumeration of `qiskit_serverless.core.enums`, whose three
members and string values are fixed by the error message in
`catalog.py` lines 234-237. -/
inductive Channel where
  | local_ : Channel
  | ibm_quantum : Channel
  | ibm_cloud : Channel
deriving DecidableEq

/-- The string value of a `Channel` member. -/
def Channel.value : Channel → String
  | .local_ => "local"
  | .ibm_quantum => "ibm_quantum"
  | .ibm_cloud => "ibm_cloud"

/-- Python's `Channel(channel)` enum lookup by value: `some` member when the
string is one of the enum's values, otherwise a `ValueError` (here `none`). -/
def Channel.ofString (s : String) : Option Channel :=
  if s = "local" then some Channel.local_
  else if s = "ibm_quantum" then some Channel.ibm_quantum
  else if s = "ibm_cloud" then some Channel.ibm_cloud
  else none

/-- A `QiskitServerlessException`, carrying its message. -/
structure QiskitServerlessException where
  message : String
deriving DecidableEq

/-- One invocation of the external credential store
`QiskitRuntimeService.save_account`, with the arguments it receives. -/
structure SaveAccountCall where
  channel : String
  token : Option String
  instance_ : Option String
  name : Option String
  overwrite : Bool
deriving DecidableEq

/-- The exception raised for an invalid channel (catalog.py lines 234-237),
whose message lists the accepted channel values. -/
def channelException : QiskitServerlessException :=
  ⟨"Your channel value is not correct. Use one of the available channels: "
    ++ Channel.local_.value ++ ", " ++ Channel.ibm_quantum.value ++ ", "
    ++ Channel.ibm_cloud.value⟩

/-- `QiskitFunctionsCatalog.save_account` (catalog.py, lines 213-245):
validate `channel` via `Channel(channel)`, raising a
`QiskitServerlessException` on `ValueError`; otherwise invoke
`QiskitRuntimeService.save_account` once with `channel_enum.value` and the
remaining arguments unchanged.  The result lists the external-store
invocations performed: an error carries none. -/
def QiskitFunctionsCatalog.save_account (token : Option String) (channel : String)
    (instance_ : Option String) (name : Option String) (overwrite : Bool) :
    Except QiskitServerlessException (List SaveAccountCall) :=
  match Channel.ofString channel with
  | none => .error channelException
  | some channel_enum => .ok [⟨channel_enum.value, token, instance_, name, overwrite⟩]

/-- Claim C3: `save_account` raises a `QiskitServerlessException` listing
the accepted channel values exactly when `channel` is outside the closed
enumeration `local`, `ibm_quantum`, `ibm_cloud`; the error case performs no
external-store call, and every valid channel leads to exactly one call to
the external store with the normalized enum value and the remaining
arguments unchanged. -/
theorem claim_C3 (token : Option String) (channel : String)
    (instance_ : Option String) (name : Option String) (overwrite : Bool) :
    (QiskitFunctionsCatalog.save_account token channel instance_ name overwrite
        = Except.error channelException
      ↔ ¬(channel = "local" ∨ channel = "ibm_quantum" ∨ channel = "ibm_cloud"))
    ∧ ((channel = "local" ∨ channel = "ibm_quantum" ∨ channel = "ibm_cloud") →
        QiskitFunctionsCatalog.save_account token channel instance_ name overwrite
          = Except.ok [⟨channel, token, instance_, name, overwrite⟩]) := by
  constructor
  · constructor
    · intro h hv
      rcases hv with hv | hv | hv <;> subst hv <;>
        simp [QiskitFunctionsCatalog.save_account, Channel.ofString] at h
    · intro hv
      have hnone : Channel.ofString channel = none := by
        unfold Channel.ofString
        push_neg at hv
        simp [hv.1, hv.2.1, hv.2.2]
      simp [QiskitFunctionsCatalog.save_account, hnone]
  · intro hv
    rcases hv with hv | hv | hv <;> subst hv <;>
      simp [QiskitFunctionsCatalog.save_account, Channel.ofString, Channel.value]

/-- Witness for C3: the invalid channel `"bogus"` raises the exception, and
the valid channel `"ibm_cloud"` leads to exactly one external-store call
with the arguments passed through. -/
theorem claim_C3_witness :
    QiskitFunctionsCatalog.save_account (some "tok") "bogus" none (some "acct") false
        = Except.error channelException
    ∧ QiskitFunctionsCatalog.save_account (some "tok") "ibm_cloud" none (some "acct") false
        = Except.ok [⟨"ibm_cloud", some "tok", none, some "acct", false⟩] :=
  ⟨(claim_C3 (some "tok") "bogus" none (some "acct") false).1.mpr (by decide),
   (claim_C3 (some "tok") "ibm_cloud" none (some "acct") false).2 (by decide)⟩

/-!
Construction (C7).  The credential resolution itself happens inside the
external `IBMServerlessClient`; the facade constructors only forward their
arguments to it and store the resulting client.
-/

/-- A resolved client connection. -/
inductive ClientConn where
  | fromToken (channel : String) (token : String) (instance_ : Option String) : ClientConn
  | fromProfile (channel : String) (name : Option String) (instance_ : Option String) : ClientConn
deriving DecidableEq

/-- Modelled from the spec: the credential resolution of the external
`IBMServerlessClient` constructor (implemented in `qiskit_serverless`,
outside this repository) — an explicit token takes precedence, and when both
a token and a profile name are given the name is ignored; without a token
the named locally-stored profile is used. -/
def IBMServerlessClient.init (channel : String) (token : Option String)
    (instance_ : Option String) (name : Option String) : ClientConn :=
  match token with
  | some t => ClientConn.fromToken channel t instance_
  | none => ClientConn.fromProfile channel name instance_

/-- The state of a constructed `QiskitFunctionsCatalog`: `__init__`
(catalog.py, lines 58-82) assigns only `self._client`. -/
structure QiskitFunctionsCatalogState where
  _client : ClientConn
deriving DecidableEq

/-- The state of a constructed `QiskitServerless`: `__init__`
(serverless.py, lines 57-71) assigns only `self._client`. -/
structure QiskitServerlessState where
  _client : ClientConn
deriving DecidableEq

/-- `QiskitFunctionsCatalog.__init__` (catalog.py, lines 58-82):
`self._client = IBMServerlessClient(channel=channel, token=token,
instance=instance, name=name)`. -/
def QiskitFunctionsCatalog.init (token : Option String) (channel : String)
    (instance_ : Option String) (name : Option String) : QiskitFunctionsCatalogState :=
  ⟨IBMServerlessClient.init channel token instance_ name⟩

/-- The default channel used when `IBMServerlessClient` is constructed
without one, as in `QiskitServerless.__init__`. -/
def IBMServerlessClient.default_channel : String := "ibm_quantum"

/-- `QiskitServerless.__init__` (serverless.py, lines 57-71):
`self._client = IBMServerlessClient(token=token, name=name)`. -/
def QiskitServerless.init (token : Option String) (name : Option String) :
    QiskitServerlessState :=
  ⟨IBMServerlessClient.init IBMServerlessClient.default_channel token none name⟩

/-- Claim C7: when both a token and a profile name are supplied to either
facade constructor, the resulting state equals the one obtained with the
name omitted (the token takes precedence and the name is ignored), and a
constructed facade holds no state beyond the reference to the remote
client: two states with the same client are equal. -/
theorem claim_C7 (t : String) (channel : String) (instance_ : Option String)
    (name : Option String) :
    QiskitFunctionsCatalog.init (some t) channel instance_ name
        = QiskitFunctionsCatalog.init (some t) channel instance_ none
    ∧ QiskitServerless.init (some t) name = QiskitServerless.init (some t) none
    ∧ (∀ s1 s2 : QiskitFunctionsCatalogState, s1._client = s2._client → s1 = s2)
    ∧ (∀ s1 s2 : QiskitServerlessState, s1._client = s2._client → s1 = s2) := by
  refine ⟨rfl, rfl, ?_, ?_⟩ <;> · intro s1 s2 h; cases s1; cases s2; simpa using h

/-- Witness for C7 at a concrete token and profile name. -/
theorem claim_C7_witness :
    QiskitFunctionsCatalog.init (some "tok") "ibm_quantum" none (some "prof")
        = QiskitFunctionsCatalog.init (some "tok") "ibm_quantum" none none
    ∧ QiskitServerless.init (some "tok") (some "prof")
        = QiskitServerless.init (some "tok") none
    ∧ (⟨ClientConn.fromToken "ibm_quantum" "tok" none⟩ : QiskitFunctionsCatalogState)
        = QiskitFunctionsCatalog.init (some "tok") "ibm_quantum" none (some "prof") := by
  refine ⟨(claim_C7 "tok" "ibm_quantum" none (some "prof")).1,
    (claim_C7 "tok" "ibm_quantum" none (some "prof")).2.1,
    (claim_C7 "tok" "ibm_quantum" none (some "prof")).2.2.1 _ _ rfl⟩

/-!
The estimator-options deep merge (C9).  `mergedeep.merge(destination,
source)` with the default replace strategy: for each key of the source, if
the key is bound in the destination and both values are mappings, merge
recursively; otherwise the source's value replaces (or extends) the
destination's.
-/

/-- A JSON-like Python value, as appears in the nested
`estimator_options` dicts of the template. -/
inductive Json where
  | bool : Bool → Json
  | num : ℚ → Json
  | str : String → Json
  | arr : List Json → Json
  | dict : List (String × Json) → Json

/-- First binding of a key in a dict's entry list. -/
def jlookup : List (String × Json) → String → Option Json
  | [], _ => none
  | (k2, v) :: rest, k => if k2 = k then some v else jlookup rest k

/-- Whether a value is a mapping. -/
def Json.isDict : Json → Bool
  | .dict _ => true
  | _ => false

mutual

/-- `mergedeep`'s recursive merge of `source` into `destination`: when both
are mappings the entries are merged keywise, otherwise the source value
replaces the destination value. -/
def deepmerge : Json → Json → Json
  | Json.dict d, Json.dict s =>
      Json.dict (mergeEntries d s ++ s.filter fun q => (jlookup d q.1).isNone)
  | _, s => s

/-- The destination's entries after merging in the source: an entry whose
key is bound in the source is merged with (or replaced by) the source's
value, the rest are kept. -/
def mergeEntries : List (String × Json) → List (String × Json) → List (String × Json)
  | [], _ => []
  | (k, v) :: rest, s =>
      (match jlookup s k with
        | some sv => (k, deepmerge v sv)
        | none => (k, v)) :: mergeEntries rest s

end

/-- Key lookup on a mapping value; `none` on non-mappings. -/
def dlookup : Json → String → Option Json
  | Json.dict d, k => jlookup d k
  | _, _ => none

/-- Lookup along a path of keys through nested mappings. -/
def lookupPath : Json → List String → Option Json
  | j, [] => some j
  | j, k :: rest =>
      match dlookup j k with
      | some v => lookupPath v rest
      | none => none

theorem jlookup_append (a b : List (String × Json)) (k : String) :
    jlookup (a ++ b) k =
      match jlookup a k with
      | some v => some v
      | none => jlookup b k := by
  induction a with
  | nil => rfl
  | cons p rest ih =>
    obtain ⟨k2, v⟩ := p
    by_cases h : k2 = k <;> simp [jlookup, h, ih]

theorem jlookup_mergeEntries (d s : List (String × Json)) (k : String) :
    jlookup (mergeEntries d s) k =
      (jlookup d k).map fun dv =>
        match jlookup s k with
        | some sv => deepmerge dv sv
        | none => dv := by
  induction d with
  | nil => rfl
  | cons p rest ih =>
    obtain ⟨k2, v⟩ := p
    by_cases h : k2 = k
    · subst h
      cases hs : jlookup s k2 <;> simp [mergeEntries, jlookup, hs]
    · cases hs : jlookup s k2 <;> simp [mergeEntries, jlookup, hs, h, ih]

theorem jlookup_filter_none (s d : List (String × Json)) (k : String)
    (h : jlookup d k ≠ none) :
    jlookup (s.filter fun q => (jlookup d q.1).isNone) k = none := by
  induction s with
  | nil => rfl
  | cons p rest ih =>
    obtain ⟨k2, v⟩ := p
    by_cases hk : k2 = k
    · subst hk
      cases hd : jlookup d k2 with
      | none => exact absurd hd h
      | some dv => simpa [List.filter, hd] using ih
    · cases hd : jlookup d k2 <;> simp [List.filter, hd, jlookup, hk, ih]

theorem jlookup_filter_some (s d : List (String × Json)) (k : String)
    (h : jlookup d k = none) :
    jlookup (s.filter fun q => (jlookup d q.1).isNone) k = jlookup s k := by
  induction s with
  | nil => rfl
  | cons p rest ih =>
    obtain ⟨k2, v⟩ := p
    by_cases hk : k2 = k
    · subst hk
      simp [List.filter, h, jlookup, ih]
    · cases hd : jlookup d k2 <;> simp [List.filter, hd, jlookup, hk, ih]

/-- Key lookup in the merge of two mappings: a key bound on both sides gets
the merge of the two values, a key bound on one side keeps its value. -/
theorem dlookup_deepmerge (d s : List (String × Json)) (k : String) :
    dlookup (deepmerge (Json.dict d) (Json.dict s)) k =
      match jlookup d k, jlookup s k with
      | some dv, some sv => some (deepmerge dv sv)
      | some dv, none => some dv
      | none, r => r := by
  cases hd : jlookup d k with
  | some dv =>
    have hne : jlookup d k ≠ none := by simp [hd]
    cases hs : jlookup s k <;>
      simp [deepmerge, dlookup, jlookup_append, jlookup_mergeEntries, hd, hs,
        jlookup_filter_none s d k hne]
  | none =>
    cases hs : jlookup s k <;>
      simp [deepmerge, dlookup, jlookup_append, jlookup_mergeEntries, hd, hs,
        jlookup_filter_some s d k hd]

/-- A path leading in the source to a non-mapping value, and bound in the
destination as well, carries the source's value in the merge. -/
theorem lookupPath_deepmerge_of_src (p : List String) (dst src v : Json)
    (hsrc : lookupPath src p = some v) (hleaf : v.isDict = false)
    (hdst : (lookupPath dst p).isSome = true) :
    lookupPath (deepmerge dst src) p = some v := by
  induction p generalizing dst src with
  | nil =>
    simp [lookupPath] at hsrc
    subst hsrc
    cases src with
    | dict s => simp [Json.isDict] at hleaf
    | bool b => cases dst <;> simp [deepmerge, lookupPath]
    | num q => cases dst <;> simp [deepmerge, lookupPath]
    | str s => cases dst <;> simp [deepmerge, lookupPath]
    | arr l => cases dst <;> simp [deepmerge, lookupPath]
  | cons k rest ih =>
    cases src with
    | dict s =>
      cases hs : jlookup s k with
      | none => simp [lookupPath, dlookup, hs] at hsrc
      | some sv =>
        cases dst with
        | dict d =>
          cases hd : jlookup d k with
          | none => simp [lookupPath, dlookup, hd] at hdst
          | some dv =>
            have hsrc2 : lookupPath sv rest = some v := by
              simpa [lookupPath, dlookup, hs] using hsrc
            have hdst2 : (lookupPath dv rest).isSome = true := by
              simpa [lookupPath, dlookup, hd] using hdst
            have hm := dlookup_deepmerge d s k
            rw [hd, hs] at hm
            simp [lookupPath, hm, ih dv sv hsrc2 hdst2]
        | bool b => simp [lookupPath, dlookup] at hdst
        | num q => simp [lookupPath, dlookup] at hdst
        | str s2 => simp [lookupPath, dlookup] at hdst
        | arr l => simp [lookupPath, dlookup] at hdst
    | bool b => simp [lookupPath, dlookup] at hsrc
    | num q => simp [lookupPath, dlookup] at hsrc
    | str s2 => simp [lookupPath, dlookup] at hsrc
    | arr l => simp [lookupPath, dlookup] at hsrc

/-- A top-level key absent from the source mapping keeps its destination
binding in the merge. -/
theorem dlookup_deepmerge_absent (dst : Json) (s : List (String × Json))
    (k : String) (h : jlookup s k = none) :
    dlookup (deepmerge dst (Json.dict s)) k = dlookup dst k := by
  cases dst with
  | dict d =>
    have hm := dlookup_deepmerge d s k
    rw [h] at hm
    cases hd : jlookup d k <;> rw [hd] at hm <;> simpa [dlookup, hd] using hm
  | bool b => simp [deepmerge, dlookup, h]
  | num q => simp [deepmerge, dlookup, h]
  | str s2 => simp [deepmerge, dlookup, h]
  | arr l => simp [deepmerge, dlookup, h]

/-- `list(np.linspace(0, 3, 31))` (hamsim_template.pregenerated.py,
line 95): the 31 evenly spaced values from 0 to 3. -/
def linspace_0_3_31 : List Json := (List.range 31).map fun i => Json.num ((i : ℚ) / 10)

/-- `estimator_default_options` (hamsim_template.pregenerated.py,
lines 88-110). -/
def estimator_default_options : Json :=
  Json.dict
    [("resilience", Json.dict
        [("measure_mitigation", Json.bool true),
         ("zne_mitigation", Json.bool true),
         ("zne", Json.dict
            [("amplifier", Json.str "gate_folding"),
             ("noise_factors", Json.arr [Json.num 1, Json.num 2, Json.num 3]),
             ("extrapolated_noise_factors", Json.arr linspace_0_3_31),
             ("extrapolator", Json.arr
                [Json.str "exponential", Json.str "linear", Json.str "fallback"])]),
         ("measure_noise_learning", Json.dict
            [("num_randomizations", Json.num 512),
             ("shots_per_randomization", Json.num 512)])]),
     ("twirling", Json.dict
        [("enable_gates", Json.bool true),
         ("enable_measure", Json.bool true),
         ("num_randomizations", Json.num 300),
         ("shots_per_randomization", Json.num 100),
         ("strategy", Json.str "active")])]

/-- The template's estimator-options merge
(hamsim_template.pregenerated.py, lines 121-123):
`merge(arguments.get("estimator_options", \x7b\x7d), estimator_default_options)` —
the caller's options are the destination, the defaults the source. -/
def template_estimator_options (caller_options : Option Json) : Json :=
  deepmerge (caller_options.getD (Json.dict [])) estimator_default_options

/-- Claim C9: in the template's estimator-options merge the hard-coded
defaults win: every key path that leads in `estimator_default_options` to a
non-mapping value and is also bound in the caller's options carries the
default's value in the merged options, and every caller top-level key
absent from the defaults keeps the caller's value. -/
theorem claim_C9 (copts : Json) (p : List String) (v : Json) (k : String) :
    (lookupPath estimator_default_options p = some v → v.isDict = false →
      (lookupPath copts p).isSome = true →
      lookupPath (template_estimator_options (some copts)) p = some v)
    ∧ (dlookup estimator_default_options k = none →
      dlookup (template_estimator_options (some copts)) k = dlookup copts k) := by
  constructor
  · intro h1 h2 h3
    exact lookupPath_deepmerge_of_src p copts estimator_default_options v h1 h2 h3
  · intro h
    have h2 : jlookup
        [("resilience", Json.dict
            [("measure_mitigation", Json.bool true),
             ("zne_mitigation", Json.bool true),
             ("zne", Json.dict
                [("amplifier", Json.str "gate_folding"),
                 ("noise_factors", Json.arr [Json.num 1, Json.num 2, Json.num 3]),
                 ("extrapolated_noise_factors", Json.arr linspace_0_3_31),
                 ("extrapolator", Json.arr
                    [Json.str "exponential", Json.str "linear", Json.str "fallback"])]),
             ("measure_noise_learning", Json.dict
                [("num_randomizations", Json.num 512),
                 ("shots_per_randomization", Json.num 512)])]),
         ("twirling", Json.dict
            [("enable_gates", Json.bool true),
             ("enable_measure", Json.bool true),
             ("num_randomizations", Json.num 300),
             ("shots_per_randomization", Json.num 100),
             ("strategy", Json.str "active")])] k = none := by
      simpa [estimator_default_options, dlookup] using h
    simpa [template_estimator_options, estimator_default_options] using
      dlookup_deepmerge_absent copts _ k h2

/-- A concrete caller options dict overlapping the defaults at
`resilience.zne_mitigation` and adding its own key `default_shots`. -/
def callerOptions : Json :=
  Json.dict
    [("resilience", Json.dict [("zne_mitigation", Json.bool false)]),
     ("default_shots", Json.num 4096)]

/-- Witness for C9: along the path `resilience.zne_mitigation`, present in
both the caller options and the defaults, the merged options carry the
default `true`, not the caller's `false`; the caller-only key
`default_shots` is preserved. -/
theorem claim_C9_witness :
    lookupPath (template_estimator_options (some callerOptions))
        ["resilience", "zne_mitigation"] = some (Json.bool true)
    ∧ dlookup (template_estimator_options (some callerOptions)) "default_shots"
        = dlookup callerOptions "default_shots" :=
  ⟨(claim_C9 callerOptions ["resilience", "zne_mitigation"] (Json.bool true)
      "default_shots").1 rfl rfl rfl,
   (claim_C9 callerOptions ["resilience", "zne_mitigation"] (Json.bool true)
      "default_shots").2 rfl⟩

/-!
The Hamiltonian-simulation template
(`templates/hamiltonian-simulation/hamsim_template.pregenerated.py`), run
as a serverless program: a sequential pipeline whose external computations
(circuit building, tensor-network simulation, optimization, transpilation,
hardware execution) are abstracted by an oracle of their results, while
the template's own control flow — extraction, validation, options merge,
output assembly, the optimizer status check and the `dry_run` early exit —
is modelled step by step.
-/

/-- The invocation of `scipy.optimize.minimize` performed by the template
(lines 352-359), with the options the template passes and the stopping
threshold its callback closes over. -/
structure MinimizeInvocation where
  method : String
  jac : Bool
  maxiter : ℕ
  stopping_point : ℚ
deriving DecidableEq

/-- The `OptimizeResult` returned by the external optimizer. -/
structure MinimizeResult where
  status : ℤ
  message : String
  nit : ℕ
  x : List ℚ
deriving DecidableEq

/-- An externally-performed step of the pipeline, in program order. -/
inductive HamsimEvent where
  | circuit_construction : HamsimEvent
  | ansatz_generation : HamsimEvent
  | tensor_network_simulation : HamsimEvent
  | optimizer_run : MinimizeInvocation → HamsimEvent
  | service_connection : HamsimEvent
  | transpilation : HamsimEvent
  | job_submission : String → HamsimEvent
deriving DecidableEq

/-- A value stored in the template's `output` result bundle. -/
inductive OutVal where
  | nat : ℕ → OutVal
  | rat : ℚ → OutVal
  | rats : List ℚ → OutVal
  | str : String → OutVal
deriving DecidableEq

/-- An exception raised by the template's own code. -/
inductive PyError where
  | valueError : String → PyError
  | runtimeError : String → PyError
deriving DecidableEq

/-- The results of the external library calls the template delegates to.
Floating-point quantities are modelled as rationals. -/
structure HamsimExternals where
  num_aqc_parameters : ℕ
  target_bond_dimension : ℕ
  starting_fidelity : ℚ
  minimize_result : MinimizeResult
  aqc_fidelity : ℚ
  twoqubit_depth : ℕ
  job_id : String
  hw_results : List ℚ
  hw_expval : ℚ

/-- The arguments dict consumed by the template (lines 48-63 and 139-143):
optional keys are `Option`-valued, read with their `.get` defaults. -/
structure HamsimArguments where
  dry_run : Option Bool
  backend_name : String
  aqc_evolution_time : ℚ
  aqc_ansatz_num_trotter_steps : ℕ
  aqc_target_num_trotter_steps : ℕ
  remainder_evolution_time : ℚ
  remainder_num_trotter_steps : ℕ
  aqc_stopping_fidelity : Option ℚ
  aqc_max_iterations : Option ℕ
  estimator_options : Option Json
  hamiltonian : ℕ
  observable : ℕ
  initial_state : Option ℕ

/-- A completed template run: the saved result bundle, the external steps
performed, the process exit code, and whether `save_result` was called. -/
structure HamsimOk where
  output : List (String × OutVal)
  events : List HamsimEvent
  exit_code : ℕ
  saved : Bool

/-- `stopping_point = 1.0 - aqc_stopping_fidelity` (line 341). -/
def stopping_point (aqc_stopping_fidelity : ℚ) : ℚ := 1 - aqc_stopping_fidelity

/-- The template's optimizer callback (lines 344-349): it raises
`StopIteration`, terminating the optimization early, exactly when the
intermediate result's objective value `fun` is strictly below
`stopping_point`. -/
def hamsimCallbackStops (sp : ℚ) (fun_value : ℚ) : Bool := fun_value < sp

/-- The template pipeline in serverless mode, following the source order:
extract arguments with their defaults; validate the stopping fidelity
(lines 71-74), raising `ValueError` before any other step; merge the
estimator options (lines 121-123); build the target and good circuits and
the ansatz, recording `num_aqc_parameters`; simulate both as MPS, recording
`target_bond_dimension` and `aqc_starting_fidelity`; run the optimizer with
`maxiter = aqc_max_iterations` and check its status (lines 352-367),
raising `RuntimeError` unless it is 0, 1 or 99; record `num_iterations`,
`aqc_final_parameters`, `aqc_fidelity`; build the final circuit, connect to
the service, transpile, record `twoqubit_depth`; if `dry_run`, save the
bundle and exit with status 0 before any hardware job (lines 447-453);
otherwise submit the job and record `job_id`, `hw_results` and
`hw_expvals`. -/
def hamsimRun (args : HamsimArguments) (ext : HamsimExternals) :
    Except (PyError × List HamsimEvent) HamsimOk :=
  let dry_run := args.dry_run.getD false
  let aqc_stopping_fidelity := args.aqc_stopping_fidelity.getD 1
  let aqc_max_iterations := args.aqc_max_iterations.getD 500
  if ¬(0 < aqc_stopping_fidelity ∧ aqc_stopping_fidelity ≤ 1) then
    Except.error (PyError.valueError ("Invalid stopping fidelity: "
      ++ toString aqc_stopping_fidelity
      ++ " - must be positive float no greater than 1"), [])
  else
    let _estimator_options := template_estimator_options args.estimator_options
    let out1 : List (String × OutVal) :=
      [("num_aqc_parameters", OutVal.nat ext.num_aqc_parameters),
       ("target_bond_dimension", OutVal.nat ext.target_bond_dimension),
       ("aqc_starting_fidelity", OutVal.rat ext.starting_fidelity)]
    let inv : MinimizeInvocation :=
      ⟨"L-BFGS-B", true, aqc_max_iterations, stopping_point aqc_stopping_fidelity⟩
    let ev1 : List HamsimEvent :=
      [HamsimEvent.circuit_construction, HamsimEvent.circuit_construction,
       HamsimEvent.ansatz_generation, HamsimEvent.tensor_network_simulation,
       HamsimEvent.tensor_network_simulation, HamsimEvent.optimizer_run inv]
    let result := ext.minimize_result
    if result.status ≠ 0 ∧ result.status ≠ 1 ∧ result.status ≠ 99 then
      Except.error (PyError.runtimeError ("Optimization failed: " ++ result.message
        ++ " (status=" ++ toString result.status ++ ")"), ev1)
    else
      let out2 : List (String × OutVal) := out1 ++
        [("num_iterations", OutVal.nat result.nit),
         ("aqc_final_parameters", OutVal.rats result.x),
         ("aqc_fidelity", OutVal.rat ext.aqc_fidelity),
         ("twoqubit_depth", OutVal.nat ext.twoqubit_depth)]
      let ev2 : List HamsimEvent := ev1 ++
        [HamsimEvent.tensor_network_simulation, HamsimEvent.circuit_construction,
         HamsimEvent.service_connection, HamsimEvent.transpilation]
      if dry_run then
        Except.ok ⟨out2, ev2, 0, true⟩
      else
        Except.ok ⟨out2 ++
          [("job_id", OutVal.str ext.job_id),
           ("hw_results", OutVal.rats ext.hw_results),
           ("hw_expvals", OutVal.rat ext.hw_expval)],
          ev2 ++ [HamsimEvent.job_submission ext.job_id], 0, true⟩

/-- The external steps performed during a run, whether or not it raised. -/
def hamsimEvents : Except (PyError × List HamsimEvent) HamsimOk → List HamsimEvent
  | .error (_, evs) => evs
  | .ok r => r.events

/-- The optimizer invocations performed during a run. -/
def hamsimMinimizeInvocations
    (r : Except (PyError × List HamsimEvent) HamsimOk) : List MinimizeInvocation :=
  (hamsimEvents r).filterMap fun e =>
    match e with
    | .optimizer_run i => some i
    | _ => none

/-- The hardware jobs submitted during a run. -/
def hamsimJobSubmissions
    (r : Except (PyError × List HamsimEvent) HamsimOk) : List String :=
  (hamsimEvents r).filterMap fun e =>
    match e with
    | .job_submission j => some j
    | _ => none

/-- The keys of the saved result bundle of a completed run. -/
def hamsimOutputKeys : Except (PyError × List HamsimEvent) HamsimOk → List String
  | .ok r => r.output.map Prod.fst
  | .error _ => []

/-- The exit code of a completed run. -/
def hamsimExitCode : Except (PyError × List HamsimEvent) HamsimOk → Option ℕ
  | .ok r => some r.exit_code
  | .error _ => none

/-- Whether a run raised a `RuntimeError` originating in the template's own
code. -/
def hamsimRaisesRuntimeError : Except (PyError × List HamsimEvent) HamsimOk → Bool
  | .error (PyError.runtimeError _, _) => true
  | _ => false

/-- A concrete arguments dict with `dry_run = True` and an out-of-range
stopping fidelity of `2`. -/
def argsInvalidFid : HamsimArguments :=
  ⟨some true, "ibm_fez", 1/5, 1, 32, 1/5, 4, some 2, none, none, 0, 0, none⟩

/-- A concrete arguments dict with `dry_run = True` and all optional
arguments left to their defaults. -/
def argsDryRun : HamsimArguments :=
  ⟨some true, "ibm_fez", 1/5, 1, 32, 1/5, 4, none, none, none, 0, 0, none⟩

/-- Concrete external results with a successful optimization (status 0). -/
def extSample : HamsimExternals :=
  ⟨37, 5, 9/10, ⟨0, "CONVERGENCE", 12, [1/2, 1/3]⟩, 19/20, 21, "job-123", [1/4], 1/4⟩

/-- Concrete external results whose optimizer reports failure status 2. -/
def extStatus2 : HamsimExternals :=
  ⟨37, 5, 9/10, ⟨2, "ABNORMAL_TERMINATION_IN_LNSRCH", 7, []⟩, 19/20, 21, "job-123", [], 0⟩

/-- Claim C5: with `f` the `aqc_stopping_fidelity` argument (default 1),
the template raises `ValueError` with no external step performed whenever
`0 < f ≤ 1` fails, and raises no `ValueError` at all when `0 < f ≤ 1`
holds. -/
theorem claim_C5 (args : HamsimArguments) (ext : HamsimExternals) :
    (¬(0 < args.aqc_stopping_fidelity.getD 1 ∧ args.aqc_stopping_fidelity.getD 1 ≤ 1) →
      hamsimRun args ext = Except.error (PyError.valueError
        ("Invalid stopping fidelity: " ++ toString (args.aqc_stopping_fidelity.getD 1)
          ++ " - must be positive float no greater than 1"), []))
    ∧ ((0 < args.aqc_stopping_fidelity.getD 1 ∧ args.aqc_stopping_fidelity.getD 1 ≤ 1) →
      ∀ (m : String) (evs : List HamsimEvent),
        hamsimRun args ext ≠ Except.error (PyError.valueError m, evs)) := by
  constructor
  · intro h
    simp only [hamsimRun]
    rw [if_pos h]
  · intro h m evs hc
    simp only [hamsimRun] at hc
    rw [if_neg (not_not_intro h)] at hc
    by_cases hs : ext.minimize_result.status ≠ 0 ∧ ext.minimize_result.status ≠ 1
        ∧ ext.minimize_result.status ≠ 99
    · rw [if_pos hs] at hc
      simp at hc
    · rw [if_neg hs] at hc
      cases hd : args.dry_run.getD false <;> simp [hd] at hc

/-- Witness for C5: the stopping fidelity 2 raises the `ValueError` before
any external step, while the default fidelity 1 raises none. -/
theorem claim_C5_witness :
    hamsimRun argsInvalidFid extSample = Except.error (PyError.valueError
        ("Invalid stopping fidelity: "
          ++ toString (argsInvalidFid.aqc_stopping_fidelity.getD 1)
          ++ " - must be positive float no greater than 1"), [])
    ∧ hamsimRun argsDryRun extSample ≠ Except.error (PyError.valueError "boom", []) :=
  ⟨(claim_C5 argsInvalidFid extSample).1 (by norm_num [argsInvalidFid]),
   (claim_C5 argsDryRun extSample).2 (by norm_num [argsDryRun]) "boom" []⟩

/-- Claim C6 (amended): given a valid stopping fidelity, the template
itself raises a `RuntimeError` in response to the optimizer's outcome
exactly when the returned status is none of 0 (success), 1 (iteration cap
reached) and 99 (early termination through the callback); those three
statuses — including non-convergence at the iteration cap — are accepted
without any template-raised error, and any other failure is only ever
raised by the external libraries themselves. -/
theorem claim_C6 (args : HamsimArguments) (ext : HamsimExternals)
    (hfid : 0 < args.aqc_stopping_fidelity.getD 1
      ∧ args.aqc_stopping_fidelity.getD 1 ≤ 1) :
    hamsimRaisesRuntimeError (hamsimRun args ext) = true
      ↔ (ext.minimize_result.status ≠ 0 ∧ ext.minimize_result.status ≠ 1
          ∧ ext.minimize_result.status ≠ 99) := by
  simp only [hamsimRun]
  rw [if_neg (not_not_intro hfid)]
  by_cases hs : ext.minimize_result.status ≠ 0 ∧ ext.minimize_result.status ≠ 1
      ∧ ext.minimize_result.status ≠ 99
  · rw [if_pos hs]
    simp [hamsimRaisesRuntimeError, hs]
  · rw [if_neg hs]
    cases hd : args.dry_run.getD false <;> simp [hamsimRaisesRuntimeError, hs]

/-- Witness for C6 (amended) at a concrete run whose optimizer returns
status 2. -/
theorem claim_C6_witness :
    hamsimRaisesRuntimeError (hamsimRun argsDryRun extStatus2) = true
      ↔ (extStatus2.minimize_result.status ≠ 0
          ∧ extStatus2.minimize_result.status ≠ 1
          ∧ extStatus2.minimize_result.status ≠ 99) :=
  claim_C6 argsDryRun extStatus2 (by norm_num [argsDryRun])

/-- Counterexample to C6 as stated: on an optimizer outcome with status 2
the template does not propagate the outcome verbatim but raises its own
`RuntimeError` (hamsim_template.pregenerated.py, lines 360-367). -/
theorem claim_C6_counterexample :
    extStatus2.minimize_result.status = 2
    ∧ hamsimRaisesRuntimeError (hamsimRun argsDryRun extStatus2) = true := by
  constructor
  · rfl
  · rfl

/-- Claim C8: every post-validation run performs exactly one optimizer
invocation, with method L-BFGS-B and iteration bound
`aqc_max_iterations` (default 500 when absent), and its callback stops the
optimization early exactly when the intermediate objective value `fv`
satisfies `fv < 1 - aqc_stopping_fidelity`, i.e. exactly when the fidelity
`1 - fv` strictly exceeds `aqc_stopping_fidelity`. -/
theorem claim_C8 (args : HamsimArguments) (ext : HamsimExternals)
    (hfid : 0 < args.aqc_stopping_fidelity.getD 1
      ∧ args.aqc_stopping_fidelity.getD 1 ≤ 1) :
    hamsimMinimizeInvocations (hamsimRun args ext)
      = [⟨"L-BFGS-B", true, args.aqc_max_iterations.getD 500,
          stopping_point (args.aqc_stopping_fidelity.getD 1)⟩]
    ∧ ∀ fv : ℚ,
        hamsimCallbackStops (stopping_point (args.aqc_stopping_fidelity.getD 1)) fv = true
          ↔ 1 - fv > args.aqc_stopping_fidelity.getD 1 := by
  constructor
  · simp only [hamsimRun]
    rw [if_neg (not_not_intro hfid)]
    by_cases hs : ext.minimize_result.status ≠ 0 ∧ ext.minimize_result.status ≠ 1
        ∧ ext.minimize_result.status ≠ 99
    · rw [if_pos hs]
      simp [hamsimMinimizeInvocations, hamsimEvents]
    · rw [if_neg hs]
      cases hd : args.dry_run.getD false <;>
        simp [hamsimMinimizeInvocations, hamsimEvents]
  · intro fv
    simp only [hamsimCallbackStops, stopping_point, decide_eq_true_eq]
    constructor <;> intro h <;> linarith

/-- Witness for C8 at a concrete run: one L-BFGS-B invocation with the
default iteration bound 500, and the callback decision at the concrete
objective value `-1/10`. -/
theorem claim_C8_witness :
    hamsimMinimizeInvocations (hamsimRun argsDryRun extSample)
      = [⟨"L-BFGS-B", true, argsDryRun.aqc_max_iterations.getD 500,
          stopping_point (argsDryRun.aqc_stopping_fidelity.getD 1)⟩]
    ∧ (hamsimCallbackStops (stopping_point (argsDryRun.aqc_stopping_fidelity.getD 1))
          (-1/10) = true
        ↔ 1 - (-1/10) > argsDryRun.aqc_stopping_fidelity.getD 1) :=
  ⟨(claim_C8 argsDryRun extSample (by norm_num [argsDryRun])).1,
   (claim_C8 argsDryRun extSample (by norm_num [argsDryRun])).2 (-1/10)⟩

/-- Claim C10: a run with `dry_run` true (given a valid stopping fidelity
and an optimizer status the template accepts) exits with status 0 right
after recording the transpiled circuit's two-qubit depth: no hardware job
is submitted, and the saved bundle holds exactly the keys
`num_aqc_parameters`, `target_bond_dimension`, `aqc_starting_fidelity`,
`num_iterations`, `aqc_final_parameters`, `aqc_fidelity`,
`twoqubit_depth` — in particular none of `job_id`, `hw_results`,
`hw_expvals`. -/
theorem claim_C10 (args : HamsimArguments) (ext : HamsimExternals)
    (hdry : args.dry_run.getD false = true)
    (hfid : 0 < args.aqc_stopping_fidelity.getD 1
      ∧ args.aqc_stopping_fidelity.getD 1 ≤ 1)
    (hstat : ext.minimize_result.status = 0 ∨ ext.minimize_result.status = 1
      ∨ ext.minimize_result.status = 99) :
    hamsimOutputKeys (hamsimRun args ext)
      = ["num_aqc_parameters", "target_bond_dimension", "aqc_starting_fidelity",
         "num_iterations", "aqc_final_parameters", "aqc_fidelity", "twoqubit_depth"]
    ∧ hamsimExitCode (hamsimRun args ext) = some 0
    ∧ hamsimJobSubmissions (hamsimRun args ext) = []
    ∧ "job_id" ∉ hamsimOutputKeys (hamsimRun args ext)
    ∧ "hw_results" ∉ hamsimOutputKeys (hamsimRun args ext)
    ∧ "hw_expvals" ∉ hamsimOutputKeys (hamsimRun args ext) := by
  have hs : ¬(ext.minimize_result.status ≠ 0 ∧ ext.minimize_result.status ≠ 1
      ∧ ext.minimize_result.status ≠ 99) := by
    rcases hstat with h | h | h <;> simp [h]
  have hrun : hamsimRun args ext = Except.ok
      ⟨[("num_aqc_parameters", OutVal.nat ext.num_aqc_parameters),
        ("target_bond_dimension", OutVal.nat ext.target_bond_dimension),
        ("aqc_starting_fidelity", OutVal.rat ext.starting_fidelity)] ++
        [("num_iterations", OutVal.nat ext.minimize_result.nit),
         ("aqc_final_parameters", OutVal.rats ext.minimize_result.x),
         ("aqc_fidelity", OutVal.rat ext.aqc_fidelity),
         ("twoqubit_depth", OutVal.nat ext.twoqubit_depth)],
        [HamsimEvent.circuit_construction, HamsimEvent.circuit_construction,
         HamsimEvent.ansatz_generation, HamsimEvent.tensor_network_simulation,
         HamsimEvent.tensor_network_simulation,
         HamsimEvent.optimizer_run ⟨"L-BFGS-B", true,
           args.aqc_max_iterations.getD 500,
           stopping_point (args.aqc_stopping_fidelity.getD 1)⟩] ++
        [HamsimEvent.tensor_network_simulation, HamsimEvent.circuit_construction,
         HamsimEvent.service_connection, HamsimEvent.transpilation],
        0, true⟩ := by
    simp only [hamsimRun]
    rw [if_neg (not_not_intro hfid), if_neg hs, hdry]
    simp
  rw [hrun]
  refine ⟨by simp [hamsimOutputKeys], rfl, by simp [hamsimJobSubmissions, hamsimEvents],
    ?_, ?_, ?_⟩ <;> simp [hamsimOutputKeys]

/-- Witness for C10 at a concrete dry run with a successful optimization. -/
theorem claim_C10_witness :
    hamsimOutputKeys (hamsimRun argsDryRun extSample)
      = ["num_aqc_parameters", "target_bond_dimension", "aqc_starting_fidelity",
         "num_iterations", "aqc_final_parameters", "aqc_fidelity", "twoqubit_depth"]
    ∧ hamsimExitCode (hamsimRun argsDryRun extSample) = some 0
    ∧ hamsimJobSubmissions (hamsimRun argsDryRun extSample) = []
    ∧ "job_id" ∉ hamsimOutputKeys (hamsimRun argsDryRun extSample)
    ∧ "hw_results" ∉ hamsimOutputKeys (hamsimRun argsDryRun extSample)
    ∧ "hw_expvals" ∉ hamsimOutputKeys (hamsimRun argsDryRun extSample) :=
  claim_C10 argsDryRun extSample rfl (by norm_num [argsDryRun]) (Or.inl rfl)
